import Mathlib

/-!
Verification of the `chat-req-res` command-dispatch core of the
`hirokuma/libp2p-tutorial` repository.

The embedding mirrors the Rust source files:
- `src/lib.rs`: the `RestReq` / `RestRes` envelopes and the `CommandHandler` type;
- `src/cmd/greet.rs`, `src/cmd/yebisu.rs`: the two handlers;
- `src/cmd.rs`: `wrap` and `register_handle` (registry construction over a `HashMap`);
- `src/server.rs`: `AppState::handler` (the dispatcher) and
  `impl IntoResponse for AppError` (the uniform error envelope, HTTP 500).

Effects are made explicit: the tokio `mpsc::Sender<String>` is modelled as a
`Sink` state (closed flag, capacity, buffered messages) threaded through the
handlers, and `anyhow::Error` as its display text (a `String`).  Fallible
steps return `Except String`.
-/

/-- Request envelope `RestReq { command, params }` from `src/lib.rs`. -/
structure RestReq where
  command : String
  params : String
deriving DecidableEq

/-- Success payload `RestRes { response }` from `src/lib.rs`. -/
structure RestRes where
  response : String
deriving DecidableEq

/-- State of the notification channel (tokio `mpsc::Sender<String>`):
`closed` is true when the consumer half has been dropped, `capacity` is the
bound of the bounded channel, and `buffer` holds the messages sent so far and
not yet drained. -/
structure Sink where
  capacity : Nat
  closed : Bool
  buffer : List String
deriving DecidableEq

/-- The bounded channel is full when the buffer has reached capacity. -/
def Sink.isFull (s : Sink) : Bool :=
  s.capacity ≤ s.buffer.length

/-- Semantics of `Sender::send(msg).await` on the notification channel:
fails with the text "channel closed" when the consumer half is gone
(tokio's `SendError` display), otherwise enqueues the message.  Suspension
on a full channel is not modelled; theorems that need it carry a
non-fullness hypothesis. -/
def Sink.send (s : Sink) (msg : String) : Except String Sink :=
  if s.closed then
    Except.error "channel closed"
  else
    Except.ok { s with buffer := s.buffer ++ [msg] }

/-- The `CommandHandler` type from `src/lib.rs`: a function from the sink and
the request to a fallible result; state passing makes the channel effect
explicit. -/
abbrev CommandHandler := Sink → RestReq → Except String (RestRes × Sink)

namespace greet

/-- The handler `greet::handle` from `src/cmd/greet.rs`: sends one string
embedding `params` on the sink (propagating a send failure via `?`), then
returns the constant response "good-bye".  The `println!` writes to stdout
only and is not modelled. -/
def handle : CommandHandler := fun tx req => do
  let tx ← tx.send ("greet handlerから: " ++ req.params)
  pure ({ response := "good-bye" }, tx)

end greet

namespace yebisu

/-- The handler `yebisu::handle` from `src/cmd/yebisu.rs`: sends one string
embedding `params` on the sink (propagating a send failure via `?`), then
returns the constant response "Yebisu beer is excellent!". -/
def handle : CommandHandler := fun tx req => do
  let tx ← tx.send ("yebisu handlerから: " ++ req.params)
  pure ({ response := "Yebisu beer is excellent!" }, tx)

end yebisu

/-- The adapter `wrap` from `src/cmd.rs`.  In the source it boxes an async
function into the `CommandHandler` closure type; with effects explicit it
forwards the arguments unchanged. -/
def wrap (f : CommandHandler) : CommandHandler := fun tx req => f tx req

/-- The registry is the `HashMap<&str, CommandHandler>` of `src/server.rs`,
modelled as an association list with `HashMap`-style insert and get. -/
abbrev Registry := List (String × CommandHandler)

/-- `HashMap::insert`: replaces the value when the key is present, otherwise
adds the binding. -/
def hashInsert (m : Registry) (k : String) (v : CommandHandler) : Registry :=
  match m with
  | [] => [(k, v)]
  | (k', v') :: rest =>
    if k' = k then (k, v) :: rest else (k', v') :: hashInsert rest k v

/-- `HashMap::get` on a string key: the value bound to the key, if any. -/
def hashGet (m : Registry) (k : String) : Option CommandHandler :=
  match m with
  | [] => none
  | (k', v') :: rest => if k' = k then some v' else hashGet rest k

/-- `register_handle` from `src/cmd.rs`: inserts `("greet", wrap greet::handle)`
and `("yebisu", wrap yebisu::handle)` into an empty map, in that order. -/
def register_handle : Registry :=
  [("greet", wrap greet.handle), ("yebisu", wrap yebisu.handle)].foldl
    (fun m p => hashInsert m p.1 p.2) []

/-- `AppState` from `src/server.rs`: the handler registry and the sender half
of the notification channel. -/
structure AppState where
  handlers : Registry
  tx : Sink

/-- `AppState::new` from `src/server.rs`: builds the registry with
`register_handle` and stores the given sender. -/
def AppState.new (tx : Sink) : AppState :=
  { handlers := register_handle, tx := tx }

/-- The dispatcher `AppState::handler` from `src/server.rs`: looks the
request's command up in the registry; if present, invokes that handler with
the sink and the request and propagates its result; if absent, fails with
the fixed error text "だめ". -/
def AppState.handler (state : AppState) (value : RestReq) :
    Except String (RestRes × Sink) :=
  match hashGet state.handlers value.command with
  | some func => func state.tx value
  | none => Except.error "だめ"

/-- Error envelope payload produced by `impl IntoResponse for AppError` in
`src/server.rs`: `{ "message": "not success", "from": <error text> }`. -/
structure ErrorEnvelope where
  message : String
  «from» : String
deriving DecidableEq

/-- `AppError::into_response` from `src/server.rs`: every error is rendered
with status `500 Internal Server Error` and the uniform payload
`{ message: "not success", from: e }`. -/
def AppError.into_response (e : String) : Nat × ErrorEnvelope :=
  (500, { message := "not success", «from» := e })

/-- Externally visible outcome of one request: either a full success payload
or a status code with the error envelope. -/
inductive HttpResult where
  | ok (res : RestRes)
  | err (status : Nat) (payload : ErrorEnvelope)
deriving DecidableEq

/-- Outcome of one POST to "/" as axum renders it: `Ok(Json(res))` becomes a
success payload, `Err(AppError)` is rendered by `AppError.into_response`.
The second component is the state of the notification channel after the
call (unchanged on the error path, where the only channel effect — the
send — has failed without enqueuing). -/
def routeResponse (state : AppState) (value : RestReq) : HttpResult × Sink :=
  match AppState.handler state value with
  | Except.ok (res, tx') => (HttpResult.ok res, tx')
  | Except.error e =>
    (HttpResult.err (AppError.into_response e).1 (AppError.into_response e).2,
      state.tx)

/-- Sequence of registry lookups with the registry threaded through, making
explicit that a lookup does not change the registry. -/
def lookupSeq (r : Registry) (names : List String) :
    List (Option CommandHandler) × Registry :=
  match names with
  | [] => ([], r)
  | n :: rest => (hashGet r n :: (lookupSeq r rest).1, (lookupSeq r rest).2)

theorem send_open (s : Sink) (msg : String) (h : s.closed = false) :
    s.send msg = Except.ok { s with buffer := s.buffer ++ [msg] } := by
  simp [Sink.send, h]

theorem send_closed (s : Sink) (msg : String) (h : s.closed = true) :
    s.send msg = Except.error "channel closed" := by
  simp [Sink.send, h]

theorem greet_step (tx : Sink) (req : RestReq) :
    greet.handle tx req =
      Except.map (fun tx' => (RestRes.mk "good-bye", tx'))
        (tx.send ("greet handlerから: " ++ req.params)) := by
  cases h : tx.send ("greet handlerから: " ++ req.params) <;>
    simp [greet.handle, h, Except.map]

theorem yebisu_step (tx : Sink) (req : RestReq) :
    yebisu.handle tx req =
      Except.map (fun tx' => (RestRes.mk "Yebisu beer is excellent!", tx'))
        (tx.send ("yebisu handlerから: " ++ req.params)) := by
  cases h : tx.send ("yebisu handlerから: " ++ req.params) <;>
    simp [yebisu.handle, h, Except.map]

theorem handler_of_some (state : AppState) (v : RestReq) (f : CommandHandler)
    (h : hashGet state.handlers v.command = some f) :
    AppState.handler state v = f state.tx v := by
  simp [AppState.handler, h]

theorem handler_of_none (state : AppState) (v : RestReq)
    (h : hashGet state.handlers v.command = none) :
    AppState.handler state v = Except.error "だめ" := by
  simp [AppState.handler, h]

theorem route_of_ok (state : AppState) (v : RestReq) (res : RestRes) (tx' : Sink)
    (h : AppState.handler state v = Except.ok (res, tx')) :
    routeResponse state v = (HttpResult.ok res, tx') := by
  simp [routeResponse, h]

theorem route_of_error (state : AppState) (v : RestReq) (e : String)
    (h : AppState.handler state v = Except.error e) :
    routeResponse state v =
      (HttpResult.err 500 (ErrorEnvelope.mk "not success" e), state.tx) := by
  simp [routeResponse, h, AppError.into_response]

theorem lookupSeq_spec (r : Registry) (names : List String) :
    lookupSeq r names = (names.map (hashGet r), r) := by
  induction names with
  | nil => rfl
  | cons n rest ih => simp [lookupSeq, ih]

/-- C1: for every registered command name `c`, dispatching `{command: c,
params: p}` invokes exactly the handler registered under `c`; concretely,
with an open, non-full sink, dispatching "greet" returns `{response:
"good-bye"}` and enqueues exactly one string, and dispatching "yebisu"
returns `{response: "Yebisu beer is excellent!"}` and enqueues exactly one
string. -/
theorem dispatch_invokes_registered_handler (tx : Sink) (p : String) :
    (∀ (c : String) (f : CommandHandler),
        hashGet register_handle c = some f →
        AppState.handler (AppState.new tx) (RestReq.mk c p) =
          f tx (RestReq.mk c p)) ∧
    (tx.closed = false → tx.buffer.length < tx.capacity →
      routeResponse (AppState.new tx) (RestReq.mk "greet" p) =
        (HttpResult.ok (RestRes.mk "good-bye"),
          Sink.mk tx.capacity tx.closed
            (tx.buffer ++ ["greet handlerから: " ++ p])) ∧
      routeResponse (AppState.new tx) (RestReq.mk "yebisu" p) =
        (HttpResult.ok (RestRes.mk "Yebisu beer is excellent!"),
          Sink.mk tx.capacity tx.closed
            (tx.buffer ++ ["yebisu handlerから: " ++ p]))) := by
  constructor
  · intro c f h
    exact handler_of_some (AppState.new tx) (RestReq.mk c p) f h
  · intro hclosed _
    constructor
    · apply route_of_ok
      have h1 := handler_of_some (AppState.new tx) (RestReq.mk "greet" p)
        (wrap greet.handle) rfl
      rw [h1]
      show greet.handle tx (RestReq.mk "greet" p) = _
      rw [greet_step, send_open tx _ hclosed]
      simp [Except.map, hclosed]
    · apply route_of_ok
      have h1 := handler_of_some (AppState.new tx) (RestReq.mk "yebisu" p)
        (wrap yebisu.handle) rfl
      rw [h1]
      show yebisu.handle tx (RestReq.mk "yebisu" p) = _
      rw [yebisu_step, send_open tx _ hclosed]
      simp [Except.map, hclosed]

/-- C1 witness: the dispatch theorem applied at an open empty sink of
capacity 10 with params "hi". -/
theorem dispatch_invokes_registered_handler_witness :
    routeResponse (AppState.new (Sink.mk 10 false [])) (RestReq.mk "greet" "hi") =
      (HttpResult.ok (RestRes.mk "good-bye"),
        Sink.mk 10 false ([] ++ ["greet handlerから: " ++ "hi"])) ∧
    routeResponse (AppState.new (Sink.mk 10 false [])) (RestReq.mk "yebisu" "hi") =
      (HttpResult.ok (RestRes.mk "Yebisu beer is excellent!"),
        Sink.mk 10 false ([] ++ ["yebisu handlerから: " ++ "hi"])) :=
  (dispatch_invokes_registered_handler (Sink.mk 10 false []) "hi").2 rfl
    (by decide)

/-- C2: for every request whose command is absent from the registry, dispatch
returns the error result "だめ" — a constant, so no handler contributes to
the outcome — and the response leaves the sink state unchanged: nothing is
sent. -/
theorem dispatch_unknown_command_no_effect (state : AppState) (v : RestReq)
    (h : hashGet state.handlers v.command = none) :
    AppState.handler state v = Except.error "だめ" ∧
    routeResponse state v =
      (HttpResult.err 500 (ErrorEnvelope.mk "not success" "だめ"), state.tx) := by
  have h1 := handler_of_none state v h
  exact ⟨h1, route_of_error state v "だめ" h1⟩

/-- C2 witness: the unknown-command theorem applied at the command "nope",
which `register_handle` does not contain. -/
theorem dispatch_unknown_command_no_effect_witness :
    hashGet (AppState.new (Sink.mk 10 false [])).handlers "nope" = none ∧
    routeResponse (AppState.new (Sink.mk 10 false [])) (RestReq.mk "nope" "x") =
      (HttpResult.err 500 (ErrorEnvelope.mk "not success" "だめ"),
        Sink.mk 10 false []) :=
  ⟨rfl,
    (dispatch_unknown_command_no_effect (AppState.new (Sink.mk 10 false []))
      (RestReq.mk "nope" "x") rfl).2⟩

/-- C3: every outcome of a request is either a full success payload or the
single failure shape: status 500 with payload `{message: "not success",
from: e}` and an unchanged sink; no other externally visible failure shape
and no partial success exists. -/
theorem failure_envelope_uniform_shape (state : AppState) (v : RestReq) :
    (∃ res tx', routeResponse state v = (HttpResult.ok res, tx')) ∨
    (∃ e, routeResponse state v =
      (HttpResult.err 500 (ErrorEnvelope.mk "not success" e), state.tx)) := by
  cases h : AppState.handler state v with
  | ok a =>
    exact Or.inl ⟨a.1, a.2, route_of_ok state v a.1 a.2 (by rw [h])⟩
  | error e =>
    exact Or.inr ⟨e, route_of_error state v e h⟩

/-- C4 counterexample: two distinct absent command names ("unknown" and
"missing") both produce the identical error text "だめ" in the envelope's
`from` field, and that text equals neither command name — so the `from`
field does not identify the requested command. -/
theorem unknown_error_text_ignores_command :
    (routeResponse (AppState.new (Sink.mk 10 false []))
        (RestReq.mk "unknown" "x")).1 =
      HttpResult.err 500 (ErrorEnvelope.mk "not success" "だめ") ∧
    (routeResponse (AppState.new (Sink.mk 10 false []))
        (RestReq.mk "missing" "x")).1 =
      HttpResult.err 500 (ErrorEnvelope.mk "not success" "だめ") ∧
    ("だめ" : String) ≠ "unknown" ∧ ("だめ" : String) ≠ "missing" ∧
    ("unknown" : String) ≠ "missing" := by
  decide

/-- C4 amended: for every request whose command is absent from the registry,
dispatch fails and the envelope's `from` field carries the fixed text
"だめ", the same for every absent command; it does not carry the requested
command name. -/
theorem unknown_command_fixed_error_text (state : AppState) (v : RestReq)
    (h : hashGet state.handlers v.command = none) :
    (routeResponse state v).1 =
      HttpResult.err 500 (ErrorEnvelope.mk "not success" "だめ") := by
  rw [route_of_error state v "だめ" (handler_of_none state v h)]

/-- C4 witness: the amended theorem applied at the absent command "absent". -/
theorem unknown_command_fixed_error_text_witness :
    hashGet (AppState.new (Sink.mk 10 false [])).handlers "absent" = none ∧
    (routeResponse (AppState.new (Sink.mk 10 false []))
        (RestReq.mk "absent" "x")).1 =
      HttpResult.err 500 (ErrorEnvelope.mk "not success" "だめ") :=
  ⟨rfl,
    unknown_command_fixed_error_text (AppState.new (Sink.mk 10 false []))
      (RestReq.mk "absent" "x") rfl⟩

/-- C5: when the sink's consumer end is closed, both handlers resolve to the
send-failure error "channel closed" rather than swallowing it, and
dispatching either command yields the error envelope instead of a success
response. -/
theorem closed_sink_send_failure_propagates (tx : Sink) (p : String)
    (req : RestReq) (h : tx.closed = true) :
    greet.handle tx req = Except.error "channel closed" ∧
    yebisu.handle tx req = Except.error "channel closed" ∧
    routeResponse (AppState.new tx) (RestReq.mk "greet" p) =
      (HttpResult.err 500 (ErrorEnvelope.mk "not success" "channel closed"),
        tx) ∧
    routeResponse (AppState.new tx) (RestReq.mk "yebisu" p) =
      (HttpResult.err 500 (ErrorEnvelope.mk "not success" "channel closed"),
        tx) := by
  have hg : ∀ r : RestReq, greet.handle tx r = Except.error "channel closed" := by
    intro r
    rw [greet_step, send_closed tx _ h]
    rfl
  have hy : ∀ r : RestReq, yebisu.handle tx r = Except.error "channel closed" := by
    intro r
    rw [yebisu_step, send_closed tx _ h]
    rfl
  refine ⟨hg req, hy req, ?_, ?_⟩
  · apply route_of_error
    rw [handler_of_some (AppState.new tx) (RestReq.mk "greet" p)
      (wrap greet.handle) rfl]
    exact hg (RestReq.mk "greet" p)
  · apply route_of_error
    rw [handler_of_some (AppState.new tx) (RestReq.mk "yebisu" p)
      (wrap yebisu.handle) rfl]
    exact hy (RestReq.mk "yebisu" p)

/-- C5 witness: the closed-sink theorem applied at a closed empty sink. -/
theorem closed_sink_send_failure_propagates_witness :
    greet.handle (Sink.mk 10 true []) (RestReq.mk "greet" "x") =
      Except.error "channel closed" ∧
    routeResponse (AppState.new (Sink.mk 10 true [])) (RestReq.mk "greet" "x") =
      (HttpResult.err 500 (ErrorEnvelope.mk "not success" "channel closed"),
        Sink.mk 10 true []) :=
  ⟨(closed_sink_send_failure_propagates (Sink.mk 10 true []) "x"
      (RestReq.mk "greet" "x") rfl).1,
    (closed_sink_send_failure_propagates (Sink.mk 10 true []) "x"
      (RestReq.mk "greet" "x") rfl).2.2.1⟩

/-- C6: the dispatcher propagates the selected handler's result verbatim: a
successful handler result is returned unchanged as the success payload, and
a handler error `e` (including a sink-send failure) becomes the envelope
whose `from` field is exactly `e`. -/
theorem handler_result_propagated_verbatim (state : AppState) (v : RestReq)
    (f : CommandHandler) (h : hashGet state.handlers v.command = some f) :
    AppState.handler state v = f state.tx v ∧
    (∀ res tx', f state.tx v = Except.ok (res, tx') →
        routeResponse state v = (HttpResult.ok res, tx')) ∧
    (∀ e, f state.tx v = Except.error e →
        routeResponse state v =
          (HttpResult.err 500 (ErrorEnvelope.mk "not success" e), state.tx)) := by
  have h1 := handler_of_some state v f h
  refine ⟨h1, ?_, ?_⟩
  · intro res tx' hf
    exact route_of_ok state v res tx' (h1.trans hf)
  · intro e hf
    exact route_of_error state v e (h1.trans hf)

/-- C6 witness: the verbatim-propagation theorem applied at the registered
command "greet" with an open sink. -/
theorem handler_result_propagated_verbatim_witness :
    AppState.handler (AppState.new (Sink.mk 10 false [])) (RestReq.mk "greet" "hi") =
      wrap greet.handle (Sink.mk 10 false []) (RestReq.mk "greet" "hi") :=
  (handler_result_propagated_verbatim (AppState.new (Sink.mk 10 false []))
    (RestReq.mk "greet" "hi") (wrap greet.handle) rfl).1

/-- C7: the registry built by `register_handle` holds exactly the keys
"greet" and "yebisu", both non-empty, each bound to exactly one handler —
the wrapped handler of the module of the same name (and `wrap` forwards the
wrapped function unchanged). -/
theorem registry_fully_populated :
    register_handle.map Prod.fst = ["greet", "yebisu"] ∧
    register_handle.length = 2 ∧
    hashGet register_handle "greet" = some (wrap greet.handle) ∧
    hashGet register_handle "yebisu" = some (wrap yebisu.handle) ∧
    wrap greet.handle = greet.handle ∧
    wrap yebisu.handle = yebisu.handle ∧
    ("greet" : String) ≠ "" ∧ ("yebisu" : String) ≠ "" := by
  refine ⟨rfl, rfl, rfl, rfl, rfl, rfl, by decide, by decide⟩

/-- C8: registry lookup is idempotent and side-effect-free: any sequence of
lookups leaves the registry unchanged, each lookup in the sequence returns
exactly what a standalone lookup returns, and repeating the same name any
number of times yields the same result every time. -/
theorem lookup_idempotent_pure (r : Registry) (names : List String)
    (n : String) (k : Nat) :
    (lookupSeq r names).2 = r ∧
    (lookupSeq r names).1 = names.map (hashGet r) ∧
    (lookupSeq r (List.replicate k n)).1 = List.replicate k (hashGet r n) := by
  refine ⟨?_, ?_, ?_⟩
  · rw [lookupSeq_spec]
  · rw [lookupSeq_spec]
  · rw [lookupSeq_spec]
    exact List.map_replicate

/-- C9: the single uniform failure status is concretely 500: the error
renderer always emits status 500 with the "not success" payload, and both
an unknown command and a sink-send failure surface with that same status —
a lookup miss is not distinguished by status from a send failure. -/
theorem failure_status_uniform_500 :
    (∀ e, AppError.into_response e =
      (500, ErrorEnvelope.mk "not success" e)) ∧
    (routeResponse (AppState.new (Sink.mk 10 false []))
        (RestReq.mk "nope" "x")).1 =
      HttpResult.err 500 (ErrorEnvelope.mk "not success" "だめ") ∧
    (routeResponse (AppState.new (Sink.mk 10 true []))
        (RestReq.mk "greet" "x")).1 =
      HttpResult.err 500 (ErrorEnvelope.mk "not success" "channel closed") ∧
    (routeResponse (AppState.new (Sink.mk 10 true []))
        (RestReq.mk "yebisu" "x")).1 =
      HttpResult.err 500 (ErrorEnvelope.mk "not success" "channel closed") := by
  refine ⟨fun e => rfl, by decide, by decide, by decide⟩

/-- C10: each handler's result is exactly the image of its single sink send:
it resolves to Ok precisely when the send succeeds, the response text is
the module's constant ("good-bye" for greet, "Yebisu beer is excellent!"
for yebisu) independent of `params`, and the sink state paired with the
success is the post-send state — the send (which embeds `params`) has
completed before the success is produced. -/
theorem handlers_ok_iff_send_ok (tx : Sink) (req : RestReq) :
    greet.handle tx req =
      Except.map (fun tx' => (RestRes.mk "good-bye", tx'))
        (tx.send ("greet handlerから: " ++ req.params)) ∧
    yebisu.handle tx req =
      Except.map (fun tx' => (RestRes.mk "Yebisu beer is excellent!", tx'))
        (tx.send ("yebisu handlerから: " ++ req.params)) :=
  ⟨greet_step tx req, yebisu_step tx req⟩
